import Mathlib

/-!
Verification of the configuration-merge and batch-orchestration core of the
API performance-testing repository.  JavaScript objects are modelled as
association lists of string keys (insertion order preserved, keys unique in
all shipped data), JavaScript values as the inductive `JsVal`, and the object
spread operator as `objMerge`.
-/

/-- Model of a JavaScript (JSON-like) value as it appears in the
configuration data: numbers, strings, arrays and objects. -/
inductive JsVal where
  | vnum (n : Int)
  | vstr (s : String)
  | varr (xs : List JsVal)
  | vobj (fs : List (String × JsVal))

/-- A JavaScript object: ordered association list of own enumerable
properties. -/
abbrev JsObj := List (String × JsVal)

/-- Property lookup on a JavaScript object (first binding wins; shipped
objects have unique keys). `none` models `undefined`. -/
def objGet (o : JsObj) (k : String) : Option JsVal :=
  (o.find? (fun kv => kv.1 == k)).map (fun kv => kv.2)

/-- The object spread `\x7b...a, ...b\x7d`: every key of `a` (value
overridden by `b` when `b` also has the key, position kept), followed by the
keys of `b` that `a` lacks, in order. -/
def objMerge (a b : JsObj) : JsObj :=
  a.map (fun kv => (kv.1, (objGet b kv.1).getD kv.2)) ++
    b.filter (fun kv => (objGet a kv.1).isNone)

/-- Spreading a value that may be absent or not an object: absent and
non-object values contribute no properties. -/
def getObjD : Option JsVal → JsObj
  | some (JsVal.vobj fs) => fs
  | _ => []


/-- Generic lookup in a string-keyed registry (JavaScript property access on
the registry object; `none` models `undefined`). -/
def lookupEntry {α : Type} (reg : List (String × α)) (k : String) : Option α :=
  (reg.find? (fun kv => kv.1 == k)).map (fun kv => kv.2)

/-- A test-suite entry of `config/test-suites.js`. -/
structure Suite where
  name : String
  description : String
  config : JsObj

/-- The test-suite registry `testSuites` of `config/test-suites.js`,
verbatim. -/
def testSuites : List (String × Suite) :=
  [ ("smoke",
     { name := "Smoke Test"
       description := "Quick validation with minimal load"
       config :=
         [ ("vus", JsVal.vnum 1), ("duration", JsVal.vstr "10s")
         , ("thresholds", JsVal.vobj
             [ ("http_req_failed", JsVal.varr [JsVal.vstr "rate<0.01"]) ]) ] })
  , ("load",
     { name := "Load Test"
       description := "Test under normal expected load"
       config :=
         [ ("vus", JsVal.vnum 50), ("duration", JsVal.vstr "2m")
         , ("thresholds", JsVal.vobj
             [ ("http_req_duration", JsVal.varr [JsVal.vstr "p(95)<500"])
             , ("http_req_failed", JsVal.varr [JsVal.vstr "rate<0.01"]) ]) ] })
  , ("stress",
     { name := "Stress Test"
       description := "Find the breaking point of the system"
       config :=
         [ ("stages", JsVal.varr
             [ JsVal.vobj [("duration", JsVal.vstr "2m"), ("target", JsVal.vnum 50)]
             , JsVal.vobj [("duration", JsVal.vstr "5m"), ("target", JsVal.vnum 50)]
             , JsVal.vobj [("duration", JsVal.vstr "2m"), ("target", JsVal.vnum 100)]
             , JsVal.vobj [("duration", JsVal.vstr "5m"), ("target", JsVal.vnum 100)]
             , JsVal.vobj [("duration", JsVal.vstr "2m"), ("target", JsVal.vnum 200)]
             , JsVal.vobj [("duration", JsVal.vstr "5m"), ("target", JsVal.vnum 200)]
             , JsVal.vobj [("duration", JsVal.vstr "2m"), ("target", JsVal.vnum 0)] ])
         , ("thresholds", JsVal.vobj
             [ ("http_req_duration", JsVal.varr [JsVal.vstr "p(95)<1000"])
             , ("http_req_failed", JsVal.varr [JsVal.vstr "rate<0.05"]) ]) ] })
  , ("spike",
     { name := "Spike Test"
       description := "Test system behavior under sudden load spikes"
       config :=
         [ ("stages", JsVal.varr
             [ JsVal.vobj [("duration", JsVal.vstr "1m"), ("target", JsVal.vnum 10)]
             , JsVal.vobj [("duration", JsVal.vstr "1m"), ("target", JsVal.vnum 100)]
             , JsVal.vobj [("duration", JsVal.vstr "1m"), ("target", JsVal.vnum 10)]
             , JsVal.vobj [("duration", JsVal.vstr "1m"), ("target", JsVal.vnum 200)]
             , JsVal.vobj [("duration", JsVal.vstr "1m"), ("target", JsVal.vnum 10)] ])
         , ("thresholds", JsVal.vobj
             [ ("http_req_duration", JsVal.varr [JsVal.vstr "p(95)<2000"])
             , ("http_req_failed", JsVal.varr [JsVal.vstr "rate<0.10"]) ]) ] })
  , ("endurance",
     { name := "Endurance Test"
       description := "Test system stability over long periods"
       config :=
         [ ("vus", JsVal.vnum 25), ("duration", JsVal.vstr "30m")
         , ("thresholds", JsVal.vobj
             [ ("http_req_duration", JsVal.varr [JsVal.vstr "p(95)<500"])
             , ("http_req_failed", JsVal.varr [JsVal.vstr "rate<0.01"]) ]) ] })
  , ("soak",
     { name := "Soak Test"
       description := "Extended testing under sustained load"
       config :=
         [ ("vus", JsVal.vnum 10), ("duration", JsVal.vstr "2h")
         , ("thresholds", JsVal.vobj
             [ ("http_req_duration", JsVal.varr [JsVal.vstr "p(95)<300"])
             , ("http_req_failed", JsVal.varr [JsVal.vstr "rate<0.005"]) ]) ] }) ]

/-- `getTestSuite` of `config/test-suites.js`. -/
def getTestSuite (name : String) : Option Suite :=
  lookupEntry testSuites name

/-- `getAllTestSuiteNames` of `config/test-suites.js`. -/
def getAllTestSuiteNames : List String :=
  testSuites.map (fun kv => kv.1)

/-- The `validation` block of an endpoint entry. -/
structure Validation where
  expectedStatus : Int
  responseTime : Int
  requiredHeaders : List String

/-- An endpoint entry of `config/endpoints.js`.  `testConfig` is the mapping
from per-suite override name to override object ("undefined" modelled by
`none`; always present in the shipped registry). -/
structure Endpoint where
  name : String
  method : String
  path : String
  baseUrl : String
  requiresAuth : Bool
  testConfig : Option (List (String × JsObj))
  validation : Validation

/-- The endpoint registry `endpoints` of `config/endpoints.js`, verbatim
(insertion order preserved). -/
def endpoints : List (String × Endpoint) :=
  [ ("users-me",
     { name := "Get Current User"
       method := "GET"
       path := "/platform-services/v2/users/me"
       baseUrl := "https://dev-api.acexr.com"
       requiresAuth := true
       testConfig := some
         [ ("loadTest",
            [ ("vus", JsVal.vnum 100), ("duration", JsVal.vstr "1m")
            , ("thresholds", JsVal.vobj
                [ ("http_req_duration", JsVal.varr [JsVal.vstr "p(95)<100"])
                , ("http_req_failed", JsVal.varr [JsVal.vstr "rate<0.01"]) ]) ])
         , ("smokeTest", [ ("vus", JsVal.vnum 1), ("duration", JsVal.vstr "10s") ]) ]
       validation :=
         { expectedStatus := 200, responseTime := 500
           requiredHeaders := ["Content-Type"] } })
  , ("client-configs",
     { name := "Get Client Configurations"
       method := "GET"
       path := "/platform-services/v2/client-configs"
       baseUrl := "https://dev-api.acexr.com"
       requiresAuth := false
       testConfig := some
         [ ("loadTest",
            [ ("vus", JsVal.vnum 50), ("duration", JsVal.vstr "2m")
            , ("thresholds", JsVal.vobj
                [ ("http_req_duration", JsVal.varr [JsVal.vstr "p(95)<200"])
                , ("http_req_failed", JsVal.varr [JsVal.vstr "rate<0.01"]) ]) ])
         , ("smokeTest", [ ("vus", JsVal.vnum 1), ("duration", JsVal.vstr "10s") ]) ]
       validation :=
         { expectedStatus := 200, responseTime := 1000
           requiredHeaders := ["Content-Type"] } })
  , ("health-check",
     { name := "Health Check"
       method := "GET"
       path := "/platform-services/v2/health"
       baseUrl := "https://dev-api.acexr.com"
       requiresAuth := false
       testConfig := some
         [ ("loadTest",
            [ ("vus", JsVal.vnum 200), ("duration", JsVal.vstr "5m")
            , ("thresholds", JsVal.vobj
                [ ("http_req_duration", JsVal.varr [JsVal.vstr "p(95)<50"])
                , ("http_req_failed", JsVal.varr [JsVal.vstr "rate<0.001"]) ]) ])
         , ("smokeTest", [ ("vus", JsVal.vnum 1), ("duration", JsVal.vstr "10s") ]) ]
       validation :=
         { expectedStatus := 200, responseTime := 100
           requiredHeaders := ["Content-Type"] } })
  , ("create-user",
     { name := "Create User"
       method := "POST"
       path := "/platform-services/v2/users"
       baseUrl := "https://dev-api.acexr.com"
       requiresAuth := true
       testConfig := some
         [ ("loadTest",
            [ ("vus", JsVal.vnum 30), ("duration", JsVal.vstr "1m")
            , ("thresholds", JsVal.vobj
                [ ("http_req_duration", JsVal.varr [JsVal.vstr "p(95)<300"])
                , ("http_req_failed", JsVal.varr [JsVal.vstr "rate<0.05"]) ]) ])
         , ("smokeTest", [ ("vus", JsVal.vnum 1), ("duration", JsVal.vstr "10s") ]) ]
       validation :=
         { expectedStatus := 201, responseTime := 1000
           requiredHeaders := ["Content-Type", "Location"] } })
  , ("update-user",
     { name := "Update User"
       method := "PATCH"
       path := "/platform-services/v2/users/\x7bid\x7d"
       baseUrl := "https://dev-api.acexr.com"
       requiresAuth := true
       testConfig := some
         [ ("loadTest",
            [ ("vus", JsVal.vnum 20), ("duration", JsVal.vstr "1m")
            , ("thresholds", JsVal.vobj
                [ ("http_req_duration", JsVal.varr [JsVal.vstr "p(95)<250"])
                , ("http_req_failed", JsVal.varr [JsVal.vstr "rate<0.03"]) ]) ])
         , ("smokeTest", [ ("vus", JsVal.vnum 1), ("duration", JsVal.vstr "10s") ]) ]
       validation :=
         { expectedStatus := 200, responseTime := 800
           requiredHeaders := ["Content-Type"] } })
  , ("auth/signin",
     { name := "Sign In"
       method := "POST"
       path := "/platform-services/v2/auth/signin"
       baseUrl := "https://dev-api.acexr.com"
       requiresAuth := true
       testConfig := some
         [ ("loadTest",
            [ ("vus", JsVal.vnum 20), ("duration", JsVal.vstr "1m")
            , ("thresholds", JsVal.vobj
                [ ("http_req_duration", JsVal.varr [JsVal.vstr "p95<250"])
                , ("http_req_failed", JsVal.varr [JsVal.vstr "rate<0.03"]) ]) ])
         , ("smokeTest", [ ("vus", JsVal.vnum 1), ("duration", JsVal.vstr "10s") ]) ]
       validation :=
         { expectedStatus := 200, responseTime := 800
           requiredHeaders := ["Content-Type"] } }) ]

/-- `getEndpoint` of `config/endpoints.js`. -/
def getEndpoint (key : String) : Option Endpoint :=
  lookupEntry endpoints key

/-- `getAllEndpoints` of `config/endpoints.js`: `Object.keys(endpoints)`,
i.e. the keys in insertion order. -/
def getAllEndpoints : List String :=
  endpoints.map (fun kv => kv.1)

/-- `String.prototype.toUpperCase` restricted to ASCII, character by
character. -/
def jsToUpper (s : String) : String :=
  String.mk (s.data.map Char.toUpper)

/-- `getEndpointsByMethod` of `config/endpoints.js`: the sub-registry of
endpoints whose `method` equals the upper-cased argument (insertion order
preserved, as Object.entries/reduce preserves it). -/
def getEndpointsByMethod (method : String) : List (String × Endpoint) :=
  endpoints.filter (fun kv => kv.2.method == jsToUpper method)

/-- `mergeConfigs` of `config/test-suites.js`: look the suite up, take the
per-suite endpoint override (`endpoint.testConfig?.[suiteName] || \x7b\x7d`),
spread-merge the suite config with the override, then rebuild `thresholds`
as the spread-merge of both threshold objects. -/
def mergeConfigs (endpoint : Endpoint) (testSuiteName : String) : Except String JsObj :=
  match lookupEntry testSuites testSuiteName with
  | none => Except.error ("Test suite \x27" ++ testSuiteName ++ "\x27 not found")
  | some testSuite =>
    let endpointConfig : JsObj :=
      (endpoint.testConfig.bind (fun tc => lookupEntry tc testSuiteName)).getD []
    Except.ok (objMerge (objMerge testSuite.config endpointConfig)
      [("thresholds", JsVal.vobj (objMerge
        (getObjD (objGet testSuite.config "thresholds"))
        (getObjD (objGet endpointConfig "thresholds"))))])

/-- JavaScript `String.prototype.replace` with a string pattern: replace the
FIRST occurrence of `pat` (if any) by `rep`, leave the string unchanged
otherwise. -/
def listReplaceFirst (s pat rep : List Char) : List Char :=
  if pat.isPrefixOf s then rep ++ s.drop pat.length
  else
    match s with
    | [] => []
    | c :: cs => c :: listReplaceFirst cs pat rep

/-- `String` wrapper of `listReplaceFirst`. -/
def strReplaceFirst (s pat rep : String) : String :=
  String.mk (listReplaceFirst s.data pat.data rep.data)

/-- `pat` occurs somewhere in `s` (as a contiguous substring). -/
def strOccurs (pat s : String) : Prop :=
  pat.data <:+: s.data

instance (pat s : String) : Decidable (strOccurs pat s) := by
  unfold strOccurs
  infer_instance

/-- `buildUrl` of `config/endpoints.js`: look the endpoint up, concatenate
`baseUrl` and `path`, then for each entry of the caller-supplied parameter
map replace the first occurrence of the braced key by the value
(`Object.entries(params).forEach` in insertion order). -/
def buildUrl (endpointKey : String) (params : List (String × String)) : Except String String :=
  match lookupEntry endpoints endpointKey with
  | none => Except.error ("Endpoint \x27" ++ endpointKey ++ "\x27 not found")
  | some endpoint =>
    Except.ok (params.foldl
      (fun url kv => strReplaceFirst url ("\x7b" ++ kv.1 ++ "\x7d") kv.2)
      (endpoint.baseUrl ++ endpoint.path))

/-- The environment variables read by the batch runner (`__ENV`), `none`
modelling an unset variable. -/
structure Env where
  BATCH_CONFIG : Option String := none
  BATCH_ENDPOINTS : Option String := none
  BATCH_TEST_SUITE : Option String := none
  BATCH_PARALLEL : Option String := none
  BATCH_MAX_CONCURRENT : Option String := none
  BATCH_DELAY : Option String := none
  AUTH_TOKEN : Option String := none

/-- JavaScript `v || default` for string-valued variables: unset and empty
strings are falsy. -/
def envString (v : Option String) (default : String) : String :=
  match v with
  | some s => if s = "" then default else s
  | none => default

/-- JavaScript `s.split(sep)` for a one-character separator: cut the
character list at every occurrence of the separator (an empty string yields
a single empty field, as in JavaScript). -/
def splitCharAux (sep : Char) : List Char → List Char → List (List Char)
  | [], acc => [acc.reverse]
  | c :: cs, acc =>
    if c = sep then acc.reverse :: splitCharAux sep cs []
    else splitCharAux sep cs (c :: acc)

/-- String wrapper of `splitCharAux`. -/
def jsSplitChar (s : String) (sep : Char) : List String :=
  (splitCharAux sep s.data []).map String.mk

/-- JavaScript `v ? v.split(",") : default`. -/
def envSplit (v : Option String) (default : List String) : List String :=
  match v with
  | some s => if s = "" then default else jsSplitChar s ','
  | none => default

/-- Leading decimal digits of a character list, `none` when there are
none (JavaScript NaN). -/
def digitsPrefix (cs : List Char) : Option Nat :=
  let ds := cs.takeWhile Char.isDigit
  if ds = [] then none
  else some (ds.foldl (fun acc c => acc * 10 + (c.toNat - 48)) 0)

/-- Leading whitespace, which `parseInt` skips. -/
def dropLeadingWs : List Char → List Char
  | [] => []
  | c :: cs => if c = ' ' ∨ c = '\t' ∨ c = '\n' ∨ c = '\r' then dropLeadingWs cs else c :: cs

/-- JavaScript `parseInt` restricted to base-10 inputs: skip leading
whitespace, optional sign, then leading digits; `none` models NaN. -/
def jsParseInt (s : String) : Option Int :=
  match dropLeadingWs s.data with
  | '-' :: rest => (digitsPrefix rest).map (fun n => -(n : Int))
  | '+' :: rest => (digitsPrefix rest).map (fun n => (n : Int))
  | rest => (digitsPrefix rest).map (fun n => (n : Int))

/-- One entry of the batch runner `batchConfig` object
(`scripts/batch-test-runner.js`).  Fields absent in a given entry are
`none`. -/
structure Batch where
  name : String
  description : String
  endpoints : List String
  testSuite : String
  parallel : Bool
  maxConcurrent : Option Int := none
  delayBetweenEndpoints : Option Int := none

/-- The `batchConfig` object of the batch runner, verbatim.  The `custom`
entry reads the environment. -/
def batchConfig (env : Env) : List (String × Batch) :=
  [ ("smoke",
     { name := "Smoke Test All Endpoints"
       description := "Quick validation of all endpoints"
       endpoints := getAllEndpoints
       testSuite := "smoke"
       parallel := false
       delayBetweenEndpoints := some 5 })
  , ("getEndpointsLoad",
     { name := "Load Test All GET Endpoints"
       description := "Load test all GET endpoints"
       endpoints := (getEndpointsByMethod "GET").map (fun kv => kv.1)
       testSuite := "load"
       parallel := true
       maxConcurrent := some 3 })
  , ("postEndpointsStress",
     { name := "Stress Test All POST Endpoints"
       description := "Stress test all POST endpoints"
       endpoints := (getEndpointsByMethod "POST").map (fun kv => kv.1)
       testSuite := "stress"
       parallel := false
       delayBetweenEndpoints := some 10 })
  , ("custom",
     { name := "Custom Batch Test"
       description := "Custom endpoint and test suite combination"
       endpoints := envSplit env.BATCH_ENDPOINTS ["users-me", "health-check"]
       testSuite := envString env.BATCH_TEST_SUITE "load"
       parallel := env.BATCH_PARALLEL == some "true"
       maxConcurrent := jsParseInt (envString env.BATCH_MAX_CONCURRENT "2")
       delayBetweenEndpoints := jsParseInt (envString env.BATCH_DELAY "5") }) ]

/-- Batch selection of the batch runner: look the name up in `batchConfig`,
throw listing the available names when it is absent. -/
def plan (batchName : String) (env : Env) : Except String Batch :=
  match lookupEntry (batchConfig env) batchName with
  | some batch => Except.ok batch
  | none => Except.error ("Batch configuration \x27" ++ batchName ++
      "\x27 not found. Available: " ++
      String.intercalate ", " ((batchConfig env).map (fun kv => kv.1)))

/-- An HTTP request as handed to the external engine: method, url, headers,
and whether a generated JSON body is attached. -/
structure Request where
  method : String
  url : String
  headers : List (String × String)
  hasGeneratedBody : Bool

/-- Outcome of running the per-endpoint body of the batch runner on one
endpoint record: emitted warnings, whether an authenticated endpoint was
attempted without a token, and the dispatched request (none when the method
switch fell through to its default branch). -/
structure ExecOutcome where
  warnings : List String
  unauthenticatedAttempted : Bool
  request : Option Request

/-- The method switch of the batch runner (`switch (endpoint.method)`):
the five supported verbs dispatch one request (POST/PUT/PATCH with a
generated body); anything else falls to the default branch and returns
without a request. -/
def dispatchByMethod (method url : String) (headers : List (String × String)) : Option Request :=
  match method with
  | "GET" => some { method := "GET", url := url, headers := headers, hasGeneratedBody := false }
  | "POST" => some { method := "POST", url := url, headers := headers, hasGeneratedBody := true }
  | "PUT" => some { method := "PUT", url := url, headers := headers, hasGeneratedBody := true }
  | "PATCH" => some { method := "PATCH", url := url, headers := headers, hasGeneratedBody := true }
  | "DELETE" => some { method := "DELETE", url := url, headers := headers, hasGeneratedBody := false }
  | _ => none

/-- The per-endpoint body of the batch runner default function
(`scripts/batch-test-runner.js`, after the endpoint record is in hand):
build the URL by plain concatenation, set the base headers, add the bearer
header when the endpoint requires auth and a token is present, warn and
proceed when it requires auth and no token is present, then dispatch by
method. -/
def executeEndpoint (endpointKey : String) (endpoint : Endpoint)
    (authToken : Option String) : ExecOutcome :=
  let url := endpoint.baseUrl ++ endpoint.path
  let baseHeaders := [("Content-Type", "application/json"), ("User-Agent", "k6-batch-test")]
  let withAuth :=
    if endpoint.requiresAuth then
      match authToken with
      | some token => (baseHeaders ++ [("Authorization", "Bearer " ++ token)],
          ([] : List String), false)
      | none => (baseHeaders,
          ["Authentication required for " ++ endpointKey ++ " but AUTH_TOKEN not provided"],
          true)
    else (baseHeaders, ([] : List String), false)
  match dispatchByMethod endpoint.method url withAuth.1 with
  | some req =>
    { warnings := withAuth.2.1
      unauthenticatedAttempted := withAuth.2.2
      request := some req }
  | none =>
    { warnings := withAuth.2.1 ++ ["Unsupported HTTP method: " ++ endpoint.method]
      unauthenticatedAttempted := withAuth.2.2
      request := none }

/-- A canonical array-index string (the decimal rendering of a natural
number, no sign, no leading zero except `"0"` itself), parsed to its
value. -/
def canonIndex? (k : String) : Option Nat :=
  let cs := k.data
  if cs ≠ [] ∧ cs.all Char.isDigit ∧ (cs.head? = some '0' → cs = ['0'])
  then some (cs.foldl (fun acc c => acc * 10 + (c.toNat - 48)) 0)
  else none

/-- JavaScript bracket lookup on an ARRAY of strings with a string key:
`"length"` yields the numeric length, a canonical numeric index string in
range yields the element (a string), every other key yields `undefined`. -/
def jsArrayGet (xs : List String) (k : String) : Option JsVal :=
  if k = "length" then some (JsVal.vnum xs.length)
  else
    match canonIndex? k with
    | some n => (xs.get? n).map JsVal.vstr
    | none => none

/-- The `method` property of a JavaScript value: only objects can carry
one; numbers and strings yield `undefined`. -/
def methodProp : JsVal → Option String
  | JsVal.vobj fs =>
    match objGet fs "method" with
    | some (JsVal.vstr s) => some s
    | _ => none
  | _ => none

/-- What one iteration of the batch runner default function does for one
endpoint key. -/
inductive IterResult where
  | skipped (key : String)
  | noDispatch (key : String)
  | dispatched (key : String) (method : String)
  deriving DecidableEq

/-- Whether an iteration result dispatched an HTTP request. -/
def IterResult.dispatchesRequest : IterResult → Bool
  | IterResult.dispatched _ _ => true
  | _ => false

/-- The loop of the batch runner default function: `endpoints` is
destructured from the setup data and is the batch's ARRAY of keys, shadowing
the imported registry object, so every lookup `endpoints[endpointKey]` is a
bracket access into that array.  A miss is skipped with a warning; a hit is
a string (or the array length), whose `method` property is `undefined`, so
the switch falls to its default branch. -/
def runIterKeys (keys : List String) : List IterResult :=
  keys.map (fun endpointKey =>
    match jsArrayGet keys endpointKey with
    | none => IterResult.skipped endpointKey
    | some endpoint =>
      match methodProp endpoint with
      | some m =>
        match dispatchByMethod m "" [] with
        | some _ => IterResult.dispatched endpointKey m
        | none => IterResult.noDispatch endpointKey
      | none => IterResult.noDispatch endpointKey)

/-- The loop applied to the batch: only the array of keys matters. -/
def runBatchIteration (batch : Batch) : List IterResult :=
  runIterKeys batch.endpoints

/-- The whole batch program: select the batch (throwing on an unknown
name before any iteration), then run the iteration loop. -/
def runBatchProgram (batchName : String) (env : Env) : Except String (List IterResult) :=
  (plan batchName env).map runBatchIteration

/-- Result of running `scripts/run-batch-test.sh`: exit code, how many times
`k6 run` was invoked (the only network-producing step), and the emitted
lines. -/
structure ShellRun where
  exitCode : Int
  k6Invocations : Nat
  output : List String

/-- The four batch configuration names accepted by
`validate_batch_config`. -/
def validBatchNames : List String :=
  ["smoke", "getEndpointsLoad", "postEndpointsStress", "custom"]

/-- The alternative listing printed by `validate_batch_config` on an invalid
name. -/
def availableLines : List String :=
  [ "Available batch configurations:"
  , "  smoke              - Smoke test all endpoints"
  , "  getEndpointsLoad   - Load test all GET endpoints"
  , "  postEndpointsStress - Stress test all POST endpoints"
  , "  custom             - Custom configuration" ]

/-- The `main` flow of `scripts/run-batch-test.sh`: check k6, default the
argument to `smoke`, honour `-h`/`--help`, validate the batch name (exit 1
with the alternatives on an invalid one), confirm with the user, then invoke
`k6 run` exactly once. -/
def runBatchScript (arg : Option String) (k6Installed : Bool) (userConfirms : Bool) : ShellRun :=
  if ¬ k6Installed then
    { exitCode := 1, k6Invocations := 0
      output := ["k6 is not installed. Please install k6 first."] }
  else
    let batchCfg := arg.getD "smoke"
    if arg = some "-h" ∨ arg = some "--help" then
      { exitCode := 0, k6Invocations := 0, output := ["Usage"] }
    else if validBatchNames.contains batchCfg then
      if userConfirms then
        { exitCode := 0, k6Invocations := 1
          output := ["Batch test completed successfully!"] }
      else
        { exitCode := 0, k6Invocations := 0
          output := ["Batch test cancelled by user"] }
    else
      { exitCode := 1, k6Invocations := 0
        output := ("Invalid batch configuration: " ++ batchCfg) :: availableLines }

/-- `mergeConfigs` with every state it touches threaded explicitly: the
suite registry it reads and the endpoint argument.  Each step of the source
is a read or a fresh-object construction, so the threaded state comes back
with the result. -/
def mergeConfigsWithState (suites : List (String × Suite)) (endpoint : Endpoint)
    (testSuiteName : String) :
    Except String JsObj × List (String × Suite) × Endpoint :=
  match lookupEntry suites testSuiteName with
  | none =>
    (Except.error ("Test suite \x27" ++ testSuiteName ++ "\x27 not found"), suites, endpoint)
  | some testSuite =>
    let endpointConfig : JsObj :=
      (endpoint.testConfig.bind (fun tc => lookupEntry tc testSuiteName)).getD []
    (Except.ok (objMerge (objMerge testSuite.config endpointConfig)
      [("thresholds", JsVal.vobj (objMerge
        (getObjD (objGet testSuite.config "thresholds"))
        (getObjD (objGet endpointConfig "thresholds"))))]), suites, endpoint)


/-- The keys of a JavaScript object, in enumeration order. -/
def objKeys (o : JsObj) : List String :=
  o.map (fun kv => kv.1)

/-- The per-suite override object of an endpoint:
`endpoint.testConfig?.[suiteName] || \x7b\x7d`. -/
def overrideConfig (endpoint : Endpoint) (testSuiteName : String) : JsObj :=
  (endpoint.testConfig.bind (fun tc => lookupEntry tc testSuiteName)).getD []

/-- A vacuous endpoint record, used only to total the registry accessors
below. -/
def emptyEndpoint : Endpoint :=
  { name := "", method := "", path := "", baseUrl := "", requiresAuth := false
    testConfig := none
    validation := { expectedStatus := 0, responseTime := 0, requiredHeaders := [] } }

/-- The `users-me` entry of the registry. -/
def epUsersMe : Endpoint :=
  (lookupEntry endpoints "users-me").getD emptyEndpoint

/-- The `update-user` entry of the registry (its path holds the `id`
placeholder). -/
def epUpdateUser : Endpoint :=
  (lookupEntry endpoints "update-user").getD emptyEndpoint

/-- A vacuous suite record, used only to total the registry accessor
below. -/
def emptySuite : Suite :=
  { name := "", description := "", config := [] }

/-- The `smoke` entry of the suite registry. -/
def suiteSmoke : Suite :=
  (lookupEntry testSuites "smoke").getD emptySuite

/-- A vacuous batch record. -/
def emptyBatch : Batch :=
  { name := "", description := "", endpoints := [], testSuite := "", parallel := false }

/-- The `smoke` entry of the batch configuration (environment
independent). -/
def smokeBatchValue : Batch :=
  (lookupEntry (batchConfig {}) "smoke").getD emptyBatch

instance (o : Option JsVal) : Decidable (o = none) :=
  match o with
  | none => isTrue rfl
  | some _ => isFalse (by simp)

theorem find?_key_append (p : String × JsVal → Bool) (l₁ l₂ : List (String × JsVal)) :
    List.find? p (l₁ ++ l₂) = (List.find? p l₁).orElse (fun _ => List.find? p l₂) := by
  induction l₁ with
  | nil => simp
  | cons x xs ih =>
    by_cases h : p x <;> simp [List.find?, h, ih, Option.orElse]

theorem find?_key_map (a : JsObj) (k : String) (f : String × JsVal → JsVal) :
    List.find? (fun kv => kv.1 == k) (a.map (fun kv => (kv.1, f kv))) =
      (List.find? (fun kv => kv.1 == k) a).map (fun kv => (kv.1, f kv)) := by
  induction a with
  | nil => simp
  | cons x xs ih =>
    by_cases h : x.1 == k <;> simp [List.find?, h, ih]

theorem find?_key_filter (b : JsObj) (k : String) (q : String × JsVal → Bool)
    (hq : ∀ kv : String × JsVal, kv.1 = k → q kv = true) :
    List.find? (fun kv => kv.1 == k) (b.filter q) =
      List.find? (fun kv => kv.1 == k) b := by
  induction b with
  | nil => simp
  | cons x xs ih =>
    by_cases hx : x.1 == k
    · have : q x = true := hq x (by simpa using hx)
      simp [List.filter, this, List.find?, hx]
    · by_cases hqx : q x = true
      · simp [List.filter, hqx, List.find?, hx, ih]
      · simp [List.filter, hqx, List.find?, hx, ih]

/-- Master lemma: lookup in a spread-merge sees the override value when the
override has the key, the base value when only the base has it. -/
theorem objGet_objMerge (a b : JsObj) (k : String) :
    objGet (objMerge a b) k =
      match objGet a k with
      | some v => some ((objGet b k).getD v)
      | none => objGet b k := by
  unfold objMerge objGet
  rw [find?_key_append, find?_key_map]
  cases hfa : List.find? (fun kv => kv.1 == k) a with
  | some kv =>
    have hk : kv.1 = k := by
      have := List.find?_some hfa
      simpa using this
    simp [Option.orElse, hk]
  | none =>
    rw [find?_key_filter b k _ (fun kv hkv => by
      simp [objGet, hkv, hfa, Option.isNone])]
    simp [Option.orElse]

/-- The key set of a spread-merge is the union of the two key sets. -/
theorem objGet_isSome_objMerge (a b : JsObj) (k : String) :
    (objGet (objMerge a b) k).isSome =
      ((objGet a k).isSome || (objGet b k).isSome) := by
  rw [objGet_objMerge]
  cases ha : objGet a k <;> cases hb : objGet b k <;> simp

/-- A key has a binding exactly when it appears in the key list. -/
theorem objGet_isSome_iff_mem_keys (o : JsObj) (k : String) :
    (objGet o k).isSome = true ↔ k ∈ o.map (fun kv => kv.1) := by
  induction o with
  | nil => simp [objGet]
  | cons x xs ih =>
    by_cases h : x.1 == k
    · have hk : x.1 = k := by simpa using h
      simp [objGet, List.find?, h, hk]
    · have hk : ¬ x.1 = k := by simpa using h
      simp only [objGet, List.find?, h] at *
      simp [objGet] at ih
      simp [ih, hk]
      intro hkx
      exact absurd hkx.symm hk

/-- A pattern that does not occur in a list is not replaced. -/
theorem listReplaceFirst_of_not_occurs (s pat rep : List Char)
    (h : ¬ pat <:+: s) : listReplaceFirst s pat rep = s := by
  induction s with
  | nil =>
    rw [listReplaceFirst]
    have hpre : pat.isPrefixOf ([] : List Char) = false := by
      rw [Bool.eq_false_iff]
      intro hp
      exact h (List.isPrefixOf_iff_prefix.mp hp).isInfix
    rw [hpre]
    simp only [Bool.false_eq_true, if_false]
  | cons c cs ih =>
    rw [listReplaceFirst]
    have hpre : pat.isPrefixOf (c :: cs) = false := by
      rw [Bool.eq_false_iff]
      intro hp
      exact h (List.isPrefixOf_iff_prefix.mp hp).isInfix
    rw [hpre]
    simp only [Bool.false_eq_true, if_false]
    have hcs : ¬ pat <:+: cs := by
      intro hinf
      rcases hinf with ⟨a, b, hab⟩
      exact h ⟨c :: a, b, by simp [← hab]⟩
    rw [ih hcs]

/-- String version: an absent pattern leaves the string verbatim. -/
theorem strReplaceFirst_of_not_occurs (s pat rep : String)
    (h : ¬ strOccurs pat s) : strReplaceFirst s pat rep = s := by
  unfold strReplaceFirst
  rw [listReplaceFirst_of_not_occurs s.data pat.data rep.data h]

/-- Folding the per-parameter substitution over parameters none of whose
braced keys occur in the string leaves the string verbatim. -/
theorem foldl_subst_of_not_occurs (params : List (String × String)) (s : String)
    (h : ∀ kv ∈ params, ¬ strOccurs ("\x7b" ++ kv.1 ++ "\x7d") s) :
    params.foldl (fun url kv => strReplaceFirst url ("\x7b" ++ kv.1 ++ "\x7d") kv.2) s = s := by
  induction params with
  | nil => rfl
  | cons kv rest ih =>
    have h1 : ¬ strOccurs ("\x7b" ++ kv.1 ++ "\x7d") s := h kv (by simp)
    rw [List.foldl_cons, strReplaceFirst_of_not_occurs s _ _ h1]
    exact ih (fun kv hkv => h kv (by simp [hkv]))

/-- A bracket lookup into an array of strings never yields an object, so its
`method` property is always `undefined`. -/
theorem methodProp_jsArrayGet (xs : List String) (k : String) (v : JsVal)
    (h : jsArrayGet xs k = some v) : methodProp v = none := by
  unfold jsArrayGet at h
  by_cases hl : k = "length"
  · simp [hl] at h
    subst h
    rfl
  · simp [hl] at h
    cases hn : canonIndex? k with
    | none => simp [hn] at h
    | some n =>
      simp [hn] at h
      rcases h with ⟨s, hget, hs⟩
      subst hs
      rfl

/-- A successful registry lookup returns one of the registry's values. -/
theorem lookupEntry_mem {α : Type} (reg : List (String × α)) (k : String) (v : α)
    (h : lookupEntry reg k = some v) : v ∈ reg.map (fun kv => kv.2) := by
  unfold lookupEntry at h
  cases hf : reg.find? (fun kv => kv.1 == k) with
  | none => rw [hf] at h; simp at h
  | some kv =>
    rw [hf] at h
    simp at h
    subst h
    exact List.mem_map_of_mem _ (List.mem_of_find?_eq_some hf)

/-- Claim C1: for every (endpoint, suiteName) pair where suiteName is a
registered test suite, merge returns a config whose thresholds key set is
the union of the suite threshold keys and the endpoint override threshold
keys; a key the override holds gets the override value, a key only the
suite holds keeps the suite value. -/
theorem mergeConfigs_thresholds_union_override
    (endpoint : Endpoint) (testSuiteName : String) (testSuite : Suite)
    (hreg : lookupEntry testSuites testSuiteName = some testSuite) :
    ∃ cfg thr,
      mergeConfigs endpoint testSuiteName = Except.ok cfg ∧
      objGet cfg "thresholds" = some (JsVal.vobj thr) ∧
      (∀ k, k ∈ objKeys thr ↔
        (k ∈ objKeys (getObjD (objGet testSuite.config "thresholds")) ∨
         k ∈ objKeys (getObjD (objGet (overrideConfig endpoint testSuiteName) "thresholds")))) ∧
      (∀ k v, objGet (getObjD (objGet (overrideConfig endpoint testSuiteName) "thresholds")) k = some v →
        objGet thr k = some v) ∧
      (∀ k, objGet (getObjD (objGet (overrideConfig endpoint testSuiteName) "thresholds")) k = none →
        objGet thr k = objGet (getObjD (objGet testSuite.config "thresholds")) k) := by
  unfold mergeConfigs
  rw [hreg]
  refine ⟨objMerge (objMerge testSuite.config (overrideConfig endpoint testSuiteName))
      [("thresholds", JsVal.vobj (objMerge
        (getObjD (objGet testSuite.config "thresholds"))
        (getObjD (objGet (overrideConfig endpoint testSuiteName) "thresholds"))))],
    objMerge (getObjD (objGet testSuite.config "thresholds"))
      (getObjD (objGet (overrideConfig endpoint testSuiteName) "thresholds")),
    ?_, ?_, ?_, ?_, ?_⟩
  · rfl
  · rw [objGet_objMerge]
    cases h2 : objGet (objMerge testSuite.config (overrideConfig endpoint testSuiteName)) "thresholds" <;>
      simp [objGet, List.find?]
  · intro k
    simp only [objKeys]
    rw [← objGet_isSome_iff_mem_keys, ← objGet_isSome_iff_mem_keys,
      ← objGet_isSome_iff_mem_keys, objGet_isSome_objMerge]
    simp
  · intro k v h
    rw [objGet_objMerge]
    cases hs : objGet (getObjD (objGet testSuite.config "thresholds")) k <;> simp [hs, h]
  · intro k h
    rw [objGet_objMerge]
    cases hs : objGet (getObjD (objGet testSuite.config "thresholds")) k <;> simp [hs, h]

/-- Witness for C1 at the registry endpoint `users-me` and the suite
`smoke`. -/
theorem mergeConfigs_thresholds_union_override_witness :
    ∃ cfg thr,
      mergeConfigs epUsersMe "smoke" = Except.ok cfg ∧
      objGet cfg "thresholds" = some (JsVal.vobj thr) ∧
      (∀ k, k ∈ objKeys thr ↔
        (k ∈ objKeys (getObjD (objGet suiteSmoke.config "thresholds")) ∨
         k ∈ objKeys (getObjD (objGet (overrideConfig epUsersMe "smoke") "thresholds")))) ∧
      (∀ k v, objGet (getObjD (objGet (overrideConfig epUsersMe "smoke") "thresholds")) k = some v →
        objGet thr k = some v) ∧
      (∀ k, objGet (getObjD (objGet (overrideConfig epUsersMe "smoke") "thresholds")) k = none →
        objGet thr k = objGet (getObjD (objGet suiteSmoke.config "thresholds")) k) :=
  mergeConfigs_thresholds_union_override epUsersMe "smoke" suiteSmoke (by rfl)

/-- Claim C2: for every endpoint and every suite name that is not
registered, merge fails with the UnknownSuite error and never returns a
(partial) merged config. -/
theorem mergeConfigs_unknown_suite (endpoint : Endpoint) (testSuiteName : String)
    (h : lookupEntry testSuites testSuiteName = none) :
    mergeConfigs endpoint testSuiteName =
      Except.error ("Test suite \x27" ++ testSuiteName ++ "\x27 not found") ∧
    ∀ cfg, mergeConfigs endpoint testSuiteName ≠ Except.ok cfg := by
  have hmain : mergeConfigs endpoint testSuiteName =
      Except.error ("Test suite \x27" ++ testSuiteName ++ "\x27 not found") := by
    unfold mergeConfigs
    rw [h]
  refine ⟨hmain, fun cfg hc => ?_⟩
  rw [hmain] at hc
  exact Except.noConfusion hc

/-- Witness for C2 at the unregistered suite name `bogus`. -/
theorem mergeConfigs_unknown_suite_witness :
    mergeConfigs epUsersMe "bogus" =
      Except.error ("Test suite \x27bogus\x27 not found") ∧
    ∀ cfg, mergeConfigs epUsersMe "bogus" ≠ Except.ok cfg :=
  mergeConfigs_unknown_suite epUsersMe "bogus" (by rfl)

/-- Counterexample to C3 as stated: `smoke-all` is not a key of the batch
runner's configuration object, so planning the batch named `smoke-all`
throws the unknown-batch error instead of returning a plan. -/
theorem plan_smoke_all_is_unknown :
    plan "smoke-all" {} = Except.error
      ("Batch configuration \x27smoke-all\x27 not found. Available: smoke, getEndpointsLoad, postEndpointsStress, custom") := by
  rfl

/-- Claim C3 (amended: the batch is registered under the name `smoke`, not
`smoke-all`): for every environment, planning the `smoke` batch returns all
registered endpoint keys, exactly once each, in registry iteration order,
with suite `smoke`, sequential mode (parallel = false) and a 5 second
delay. -/
theorem plan_smoke_all_endpoints (env : Env) :
    ∃ b, plan "smoke" env = Except.ok b ∧
      b.endpoints = getAllEndpoints ∧
      b.endpoints = ["users-me", "client-configs", "health-check",
        "create-user", "update-user", "auth/signin"] ∧
      b.endpoints.Nodup ∧
      b.testSuite = "smoke" ∧
      b.parallel = false ∧
      b.delayBetweenEndpoints = some 5 := by
  refine ⟨_, rfl, rfl, by rfl, by decide, rfl, rfl, rfl⟩

/-- Claim C4: the `custom` batch takes endpoint keys, suite, mode, delay and
concurrency cap from the environment, with the documented defaults when the
corresponding variable is absent; in particular endpoints `a,b` with suite
`load` give exactly the keys a and b with suite load. -/
theorem plan_custom_env_and_defaults :
    (∃ b, plan "custom" {} = Except.ok b ∧
      b.endpoints = ["users-me", "health-check"] ∧
      b.testSuite = "load" ∧
      b.parallel = false ∧
      b.delayBetweenEndpoints = some 5 ∧
      b.maxConcurrent = some 2) ∧
    (∃ b, plan "custom"
        { BATCH_ENDPOINTS := some "a,b", BATCH_TEST_SUITE := some "load" } = Except.ok b ∧
      b.endpoints = ["a", "b"] ∧
      b.testSuite = "load") ∧
    (∀ env : Env, ∃ b, plan "custom" env = Except.ok b ∧
      b.endpoints = envSplit env.BATCH_ENDPOINTS ["users-me", "health-check"] ∧
      b.testSuite = envString env.BATCH_TEST_SUITE "load" ∧
      b.parallel = (env.BATCH_PARALLEL == some "true") ∧
      b.maxConcurrent = jsParseInt (envString env.BATCH_MAX_CONCURRENT "2") ∧
      b.delayBetweenEndpoints = jsParseInt (envString env.BATCH_DELAY "5")) := by
  refine ⟨⟨_, by rfl, by rfl, rfl, rfl, by rfl, by rfl⟩,
    ⟨_, by rfl, by rfl, rfl⟩,
    fun env => ⟨_, by rfl, rfl, rfl, rfl, rfl, rfl⟩⟩

/-- Claim C5: every batch name other than the four recognised ones makes
the runner fail with the unknown-batch error naming the valid alternatives,
makes the shell wrapper exit with code 1 printing the alternatives, and no
k6 invocation (hence no network call) happens before the failure. -/
theorem unknown_batch_name_fails (batchName : String)
    (hvalid : batchName ∉ validBatchNames)
    (hh : batchName ≠ "-h") (hhelp : batchName ≠ "--help") :
    (∀ env : Env, plan batchName env = Except.error
      ("Batch configuration \x27" ++ batchName ++ "\x27 not found. Available: " ++
        "smoke, getEndpointsLoad, postEndpointsStress, custom")) ∧
    (∀ env : Env, runBatchProgram batchName env = Except.error
      ("Batch configuration \x27" ++ batchName ++ "\x27 not found. Available: " ++
        "smoke, getEndpointsLoad, postEndpointsStress, custom")) ∧
    (∀ confirms : Bool,
      (runBatchScript (some batchName) true confirms).exitCode = 1 ∧
      (runBatchScript (some batchName) true confirms).k6Invocations = 0 ∧
      (runBatchScript (some batchName) true confirms).output =
        ("Invalid batch configuration: " ++ batchName) :: availableLines) := by
  have hmem := hvalid
  simp only [validBatchNames, List.mem_cons, List.not_mem_nil, or_false] at hmem
  push_neg at hmem
  obtain ⟨h1, h2, h3, h4⟩ := hmem
  have f1 : ("smoke" == batchName) = false := beq_eq_false_iff_ne.mpr (Ne.symm h1)
  have f2 : ("getEndpointsLoad" == batchName) = false := beq_eq_false_iff_ne.mpr (Ne.symm h2)
  have f3 : ("postEndpointsStress" == batchName) = false := beq_eq_false_iff_ne.mpr (Ne.symm h3)
  have f4 : ("custom" == batchName) = false := beq_eq_false_iff_ne.mpr (Ne.symm h4)
  have hfind : ∀ env : Env, lookupEntry (batchConfig env) batchName = none := by
    intro env
    simp [lookupEntry, batchConfig, List.find?, f1, f2, f3, f4]
  have hjs : ∀ env : Env, plan batchName env = Except.error
      ("Batch configuration \x27" ++ batchName ++ "\x27 not found. Available: " ++
        "smoke, getEndpointsLoad, postEndpointsStress, custom") := by
    intro env
    unfold plan
    rw [hfind env]
    rfl
  refine ⟨hjs, fun env => ?_, fun confirms => ?_⟩
  · unfold runBatchProgram
    rw [hjs env]
    rfl
  · have hnothelp : ¬ (some batchName = some "-h" ∨ some batchName = some "--help") := by
      rintro (e | e)
      · exact hh (Option.some.inj e)
      · exact hhelp (Option.some.inj e)
    have hcont : validBatchNames.contains batchName = false := by
      rw [Bool.eq_false_iff]
      intro hc
      exact hvalid (by simpa using hc)
    have hrun : runBatchScript (some batchName) true confirms =
        { exitCode := 1, k6Invocations := 0
          output := ("Invalid batch configuration: " ++ batchName) :: availableLines } := by
      simp [runBatchScript, hh, hhelp, hvalid]
    rw [hrun]
    exact ⟨rfl, rfl, rfl⟩

/-- Witness for C5 at the batch name `unknown-batch`. -/
theorem unknown_batch_name_fails_witness :
    (∀ env : Env, plan "unknown-batch" env = Except.error
      ("Batch configuration \x27unknown-batch\x27 not found. Available: smoke, getEndpointsLoad, postEndpointsStress, custom")) ∧
    (∀ env : Env, runBatchProgram "unknown-batch" env = Except.error
      ("Batch configuration \x27unknown-batch\x27 not found. Available: smoke, getEndpointsLoad, postEndpointsStress, custom")) ∧
    (∀ confirms : Bool,
      (runBatchScript (some "unknown-batch") true confirms).exitCode = 1 ∧
      (runBatchScript (some "unknown-batch") true confirms).k6Invocations = 0 ∧
      (runBatchScript (some "unknown-batch") true confirms).output =
        "Invalid batch configuration: unknown-batch" :: availableLines) :=
  unknown_batch_name_fails "unknown-batch" (by decide) (by decide) (by decide)

/-- Claim C6: for every registered endpoint key and caller-supplied
parameter map, the URL builder succeeds with baseUrl concatenated with the
path in which each braced key of the map is substituted (first occurrence,
in map order), and when no key of the map matches a placeholder of the
template, the template is returned verbatim (placeholders kept, nothing
removed, no failure). -/
theorem buildUrl_placeholder_semantics (endpointKey : String) (endpoint : Endpoint)
    (hreg : lookupEntry endpoints endpointKey = some endpoint)
    (params : List (String × String)) :
    buildUrl endpointKey params = Except.ok (params.foldl
      (fun url kv => strReplaceFirst url ("\x7b" ++ kv.1 ++ "\x7d") kv.2)
      (endpoint.baseUrl ++ endpoint.path)) ∧
    ((∀ kv ∈ params, ¬ strOccurs ("\x7b" ++ kv.1 ++ "\x7d") (endpoint.baseUrl ++ endpoint.path)) →
      buildUrl endpointKey params = Except.ok (endpoint.baseUrl ++ endpoint.path)) := by
  have hmain : buildUrl endpointKey params = Except.ok (params.foldl
      (fun url kv => strReplaceFirst url ("\x7b" ++ kv.1 ++ "\x7d") kv.2)
      (endpoint.baseUrl ++ endpoint.path)) := by
    unfold buildUrl
    rw [hreg]
  refine ⟨hmain, fun hnone => ?_⟩
  rw [hmain, foldl_subst_of_not_occurs params _ hnone]

/-- Witness for C6 at the endpoint `update-user` (whose path holds the `id`
placeholder) and the parameter map mapping id to 123. -/
theorem buildUrl_placeholder_semantics_witness :
    buildUrl "update-user" [("id", "123")] = Except.ok
      (([(("id" : String), ("123" : String))]).foldl
        (fun url kv => strReplaceFirst url ("\x7b" ++ kv.1 ++ "\x7d") kv.2)
        (epUpdateUser.baseUrl ++ epUpdateUser.path)) ∧
    ((∀ kv ∈ ([(("id" : String), ("123" : String))]),
        ¬ strOccurs ("\x7b" ++ kv.1 ++ "\x7d") (epUpdateUser.baseUrl ++ epUpdateUser.path)) →
      buildUrl "update-user" [("id", "123")] = Except.ok
        (epUpdateUser.baseUrl ++ epUpdateUser.path)) :=
  buildUrl_placeholder_semantics "update-user" epUpdateUser (by rfl) [("id", "123")]

/-- Claim C7: for every endpoint requiring auth with a supported method,
executing without a token does not fail: the unauthenticated-attempt flag
is set (with its warning), and the request is still dispatched; executing
with a token attaches the Authorization bearer header. -/
theorem executeEndpoint_auth_degrades (endpointKey : String) (endpoint : Endpoint)
    (hauth : endpoint.requiresAuth = true)
    (hm : endpoint.method ∈ ["GET", "POST", "PUT", "PATCH", "DELETE"]) :
    ((executeEndpoint endpointKey endpoint none).unauthenticatedAttempted = true ∧
     (executeEndpoint endpointKey endpoint none).warnings =
       ["Authentication required for " ++ endpointKey ++ " but AUTH_TOKEN not provided"] ∧
     ∃ req, (executeEndpoint endpointKey endpoint none).request = some req ∧
       req.method = endpoint.method ∧
       req.url = endpoint.baseUrl ++ endpoint.path) ∧
    (∀ token : String,
      (executeEndpoint endpointKey endpoint (some token)).unauthenticatedAttempted = false ∧
      ∃ req, (executeEndpoint endpointKey endpoint (some token)).request = some req ∧
        ("Authorization", "Bearer " ++ token) ∈ req.headers) := by
  simp only [List.mem_cons, List.not_mem_nil, or_false] at hm
  rcases hm with h | h | h | h | h <;>
    refine ⟨?_, fun token => ?_⟩ <;>
    simp [executeEndpoint, dispatchByMethod, hauth, h]

/-- Witness for C7 at the registry endpoint `users-me` (GET, requires
auth). -/
theorem executeEndpoint_auth_degrades_witness :
    ((executeEndpoint "users-me" epUsersMe none).unauthenticatedAttempted = true ∧
     (executeEndpoint "users-me" epUsersMe none).warnings =
       ["Authentication required for " ++ "users-me" ++ " but AUTH_TOKEN not provided"] ∧
     ∃ req, (executeEndpoint "users-me" epUsersMe none).request = some req ∧
       req.method = epUsersMe.method ∧
       req.url = epUsersMe.baseUrl ++ epUsersMe.path) ∧
    (∀ token : String,
      (executeEndpoint "users-me" epUsersMe (some token)).unauthenticatedAttempted = false ∧
      ∃ req, (executeEndpoint "users-me" epUsersMe (some token)).request = some req ∧
        ("Authorization", "Bearer " ++ token) ∈ req.headers) :=
  executeEndpoint_auth_degrades "users-me" epUsersMe (by rfl) (by decide)

/-- Claim C8: merge is pure and deterministic.  With every state it touches
threaded explicitly, the suite registry and the endpoint argument come back
unchanged (no mutation, no side effect), the threaded run agrees with the
plain function, and identical inputs give equal results. -/
theorem mergeConfigs_pure (suites : List (String × Suite)) (endpoint : Endpoint)
    (testSuiteName : String) :
    ((mergeConfigsWithState suites endpoint testSuiteName).2.1 = suites ∧
     (mergeConfigsWithState suites endpoint testSuiteName).2.2 = endpoint) ∧
    (mergeConfigsWithState testSuites endpoint testSuiteName).1 =
      mergeConfigs endpoint testSuiteName ∧
    (∀ endpoint2 name2, endpoint = endpoint2 → testSuiteName = name2 →
      mergeConfigs endpoint testSuiteName = mergeConfigs endpoint2 name2) := by
  refine ⟨?_, ?_, ?_⟩
  · unfold mergeConfigsWithState
    cases h : lookupEntry suites testSuiteName <;> simp
  · unfold mergeConfigsWithState mergeConfigs
    cases h : lookupEntry testSuites testSuiteName <;> simp
  · intro endpoint2 name2 he hn
    rw [he, hn]

/-- Witness for C8 at the shipped suite registry, the `users-me` endpoint
and the suite name `smoke`. -/
theorem mergeConfigs_pure_witness :
    ((mergeConfigsWithState testSuites epUsersMe "smoke").2.1 = testSuites ∧
     (mergeConfigsWithState testSuites epUsersMe "smoke").2.2 = epUsersMe) ∧
    (mergeConfigsWithState testSuites epUsersMe "smoke").1 =
      mergeConfigs epUsersMe "smoke" ∧
    (∀ endpoint2 name2, epUsersMe = endpoint2 → "smoke" = name2 →
      mergeConfigs epUsersMe "smoke" = mergeConfigs endpoint2 name2) :=
  mergeConfigs_pure testSuites epUsersMe "smoke"

/-- Claim C9: for every endpoint of the shipped registry and every
registered suite, the per-suite override lookup misses (the endpoint
testConfig keys loadTest/smokeTest never equal a registered suite name), so
mergeConfigs returns exactly the suite's own config, thresholds
unchanged. -/
theorem mergeConfigs_registry_equals_suite_config :
    ∀ kep ∈ endpoints, ∀ nts ∈ testSuites,
      (kep.2.testConfig.bind (fun tc => lookupEntry tc nts.1)) = none ∧
      (∀ ck ∈ (kep.2.testConfig.getD []).map (fun kv => kv.1), ck ∉ getAllTestSuiteNames) ∧
      mergeConfigs kep.2 nts.1 = Except.ok nts.2.config := by
  intro kep hkep nts hnts
  fin_cases hkep <;> fin_cases hnts <;> exact ⟨rfl, by decide, rfl⟩

/-- Witness for C9 at the endpoint `users-me` and the suite `smoke`. -/
theorem mergeConfigs_registry_equals_suite_config_witness :
    (epUsersMe.testConfig.bind (fun tc => lookupEntry tc "smoke")) = none ∧
    (∀ ck ∈ (epUsersMe.testConfig.getD []).map (fun kv => kv.1), ck ∉ getAllTestSuiteNames) ∧
    mergeConfigs epUsersMe "smoke" = Except.ok suiteSmoke.config :=
  mergeConfigs_registry_equals_suite_config ("users-me", epUsersMe)
    (List.mem_cons_self _ _) ("smoke", suiteSmoke) (List.mem_cons_self _ _)

/-- Claim C10: the batch runner per-iteration function dispatches no HTTP
request for any batch: the lookup goes into the batch's own ARRAY of keys
(shadowing the imported registry), so under the shipped key lists every
lookup yields undefined and every endpoint is skipped with a warning. -/
theorem batch_runner_never_dispatches :
    (∀ b : Batch, ∀ r ∈ runBatchIteration b, r.dispatchesRequest = false) ∧
    (∀ (batchName : String) (env : Env) (b : Batch),
      env.BATCH_ENDPOINTS = none →
      plan batchName env = Except.ok b →
      ∀ k ∈ b.endpoints, jsArrayGet b.endpoints k = none ∧
        IterResult.skipped k ∈ runBatchIteration b) := by
  constructor
  · intro b r hr
    unfold runBatchIteration runIterKeys at hr
    rcases List.mem_map.mp hr with ⟨k, hk, hmap⟩
    subst hmap
    cases hj : jsArrayGet b.endpoints k with
    | none => simp [hj, IterResult.dispatchesRequest]
    | some v =>
      simp [hj, methodProp_jsArrayGet b.endpoints k v hj, IterResult.dispatchesRequest]
  · intro batchName env b hbe hplan k hk
    unfold plan at hplan
    cases hfind : lookupEntry (batchConfig env) batchName with
    | none =>
      rw [hfind] at hplan
      exact absurd hplan (by simp)
    | some bb =>
      rw [hfind] at hplan
      have hbb : bb = b := Except.ok.inj hplan
      subst hbb
      have hmem := lookupEntry_mem _ _ _ hfind
      simp only [batchConfig, List.map_cons, List.map_nil, List.mem_cons,
        List.not_mem_nil, or_false] at hmem
      rcases hmem with hb | hb | hb | hb
      · have hend : bb.endpoints = ["users-me", "client-configs", "health-check",
            "create-user", "update-user", "auth/signin"] := by rw [hb]; rfl
        simp only [runBatchIteration]
        rw [hend] at hk ⊢
        fin_cases hk <;> exact ⟨rfl, by decide⟩
      · have hend : bb.endpoints = ["users-me", "client-configs", "health-check"] := by
          rw [hb]; rfl
        simp only [runBatchIteration]
        rw [hend] at hk ⊢
        fin_cases hk <;> exact ⟨rfl, by decide⟩
      · have hend : bb.endpoints = ["create-user", "auth/signin"] := by rw [hb]; rfl
        simp only [runBatchIteration]
        rw [hend] at hk ⊢
        fin_cases hk <;> exact ⟨rfl, by decide⟩
      · have hend : bb.endpoints = ["users-me", "health-check"] := by
          rw [hb]
          show envSplit env.BATCH_ENDPOINTS ["users-me", "health-check"] = _
          rw [hbe]
          rfl
        simp only [runBatchIteration]
        rw [hend] at hk ⊢
        fin_cases hk <;> exact ⟨rfl, by decide⟩

/-- Witness for C10 at the smoke batch and the key `users-me`. -/
theorem batch_runner_never_dispatches_witness :
    (∀ r ∈ runBatchIteration smokeBatchValue, r.dispatchesRequest = false) ∧
    (jsArrayGet smokeBatchValue.endpoints "users-me" = none ∧
     IterResult.skipped "users-me" ∈ runBatchIteration smokeBatchValue) :=
  ⟨batch_runner_never_dispatches.1 smokeBatchValue,
   batch_runner_never_dispatches.2 "smoke" {} smokeBatchValue rfl rfl "users-me" (by decide)⟩
